import Mathlib

/-!
Shallow embedding of `src/ai-engine/predict.py` (SafeOrbit inference CLI).

The script is glue around an external vision library: it validates paths,
delegates model loading and inference to the library, reshapes the returned
detections into plain records, optionally writes an annotated image, and
prints summaries.  The embedding models the filesystem and every external
library call as oracles carried in an `Env`; the script's own control flow
(path checks, error handling, result shaping, output naming, exit codes) is
translated function by function.

Conventions:
- Python `Path` values are plain strings; `Path.stem` / `Path.suffix` are
  implemented below following CPython's `pathlib` (`rfind` of a dot in the
  final component).
- Python floats that the script merely carries through (confidences,
  thresholds, box coordinates) are `ℚ`.
- Exceptions are `Except PyError`; `PyError` distinguishes the exception
  classes the script itself raises (`FileNotFoundError`, `ValueError`)
  from any other exception an oracle may raise.
- The ultralytics `Results.boxes` object is modelled as a list of raw boxes;
  each row of its `xyxy` tensor has exactly four entries (shape `(N, 4)` is
  the library's documented contract), so a raw box carries four coordinates.
  `hasattr(results, 'boxes')` failing is modelled by `Option.none`.
-/

namespace SafeOrbit

/-- An exception value, tagged with the Python exception class. -/
inductive PyError where
  | fileNotFound (msg : String)
  | valueError (msg : String)
  | other (msg : String)
deriving DecidableEq, Repr

/-- A decoded image as returned by `cv2.imread`: `shape[:2]` is
`(height, width)`; `data` abstracts the pixel contents so that oracles can
distinguish images. -/
structure Image where
  height : Nat
  width : Nat
  data : Nat
deriving DecidableEq, Repr

/-- One row of the ultralytics `Results.boxes` arrays: `cls[i]` (already
converted to an integer), `conf[i]`, and the four entries of `xyxy[i]`. -/
structure RawBox where
  cls : Int
  conf : ℚ
  x1 : ℚ
  y1 : ℚ
  x2 : ℚ
  y2 : ℚ
deriving DecidableEq, Repr

/-- The value returned by an inference call, as seen by
`_extract_predictions`: `none` models a results object without a `boxes`
attribute. -/
def InferResults : Type := Option (List RawBox)

/-- A loaded model: the script only uses its `names` mapping
(class id to class name). -/
structure Model where
  names : Int → String

/-- The filesystem as the script observes it. -/
structure FS where
  pathExists : String → Bool
  isFile : String → Bool
  isDir : String → Bool
  readImage : String → Option Image
  listDir : String → List String

/-- The environment: the filesystem plus every external-library call the
script delegates to.  `ttaAvailable` is the module-level `TTA_AVAILABLE`
flag (whether `from inference_tta import TTAPredictor` succeeded). -/
structure Env where
  fs : FS
  ttaAvailable : Bool
  cudaAvailable : Bool
  loadYOLO : String → Except PyError Model
  loadTTA : String → ℚ → ℚ → Except PyError Model
  inferModel : Model → ℚ → ℚ → String → Image → Except PyError InferResults
  inferTTA : Model → Image → Except PyError InferResults

/-- `ObjectDetectionPredictor` after a successful `__init__`. -/
structure Predictor where
  model_path : String
  conf_threshold : ℚ
  iou_threshold : ℚ
  use_tta : Bool
  device : String
  model : Model

/-- One entry of the `predictions` list built by `_extract_predictions`. -/
structure Prediction where
  class_id : Int
  class_name : String
  confidence : ℚ
  bbox : List ℚ
deriving DecidableEq, Repr

/-- The dictionary returned by `predict_image`. -/
structure PredResult where
  image_path : String
  image_size : Nat × Nat
  predictions : List Prediction
  num_detections : Nat
deriving DecidableEq, Repr

/-- Split a character list at every occurrence of `sep` (the splitting
`str.split(sep)` performs). -/
def splitOnSep (sep : Char) : List Char → List (List Char)
  | [] => [[]]
  | c :: rest =>
      if c = sep then [] :: splitOnSep sep rest
      else
        match splitOnSep sep rest with
        | [] => [[c]]
        | g :: gs => (c :: g) :: gs

/-- `str.upper()`: character-wise uppercase. -/
def strUpper (s : String) : String := String.mk (s.toList.map Char.toUpper)

/-- `str.endswith(suffixStr)`: character-wise suffix test. -/
def strEndsWith (s suffixStr : String) : Bool :=
  List.isPrefixOf suffixStr.toList.reverse s.toList.reverse

/-- The final component of a path (`pathlib.PurePath.name`):
the last nonempty `/`-separated component. -/
def pathlibName (p : String) : String :=
  String.mk (((splitOnSep '/' p.toList).filter (fun c => c ≠ [])).getLastD [])

/-- Index of the last `.` in a string (`str.rfind`), `none` if absent. -/
def rfindDot (name : String) : Option Nat :=
  (name.toList.reverse.findIdx? (fun c => c = '.')).map
    (fun j => name.toList.length - 1 - j)

/-- `pathlib.PurePath.suffix`: the part of the final component from its last
dot on, provided that dot is neither the first nor the last character. -/
def pathSuffix (p : String) : String :=
  let name := pathlibName p
  match rfindDot name with
  | none => ""
  | some i =>
      if 0 < i ∧ i + 1 < name.toList.length then
        String.mk (name.toList.drop i)
      else ""

/-- `pathlib.PurePath.stem`: the final component with `pathSuffix`
removed. -/
def pathStem (p : String) : String :=
  let name := pathlibName p
  match rfindDot name with
  | none => name
  | some i =>
      if 0 < i ∧ i + 1 < name.toList.length then
        String.mk (name.toList.take i)
      else name

/-- `ObjectDetectionPredictor.__init__` (predict.py lines 61-114).
Raises `FileNotFoundError` when the model path does not exist; downgrades
`use_tta` by the module flag (`self.use_tta = use_tta and TTA_AVAILABLE`);
auto-detects the device; loads through `TTAPredictor` or plain `YOLO`. -/
def mkPredictor (env : Env) (model_path : String)
    (conf_threshold iou_threshold : ℚ) (device : Option String)
    (use_tta : Bool) : Except PyError Predictor :=
  if !(env.fs.pathExists model_path) then
    .error (.fileNotFound ("Model not found: " ++ model_path))
  else
    let use_tta' := use_tta && env.ttaAvailable
    let dev := match device with
      | none => if env.cudaAvailable then "cuda" else "cpu"
      | some d => d
    if use_tta' then
      match env.loadTTA model_path conf_threshold iou_threshold with
      | .error e => .error e
      | .ok m => .ok ⟨model_path, conf_threshold, iou_threshold, true, dev, m⟩
    else
      match env.loadYOLO model_path with
      | .error e => .error e
      | .ok m => .ok ⟨model_path, conf_threshold, iou_threshold, false, dev, m⟩

/-- `_extract_predictions` (lines 228-243): if the results object has boxes,
build one record per box, resolving the class name through
`self.class_names`. -/
def extract_predictions (names : Int → String) (results : InferResults) :
    List Prediction :=
  match results with
  | none => []
  | some boxes =>
      boxes.map (fun b => ⟨b.cls, names b.cls, b.conf, [b.x1, b.y1, b.x2, b.y2]⟩)

/-- `predict_image` (lines 116-176).  Returns the result dictionary together
with the list of output paths written by `cv2.imwrite`.  Raises
`FileNotFoundError` for a missing path, `ValueError` when `cv2.imread`
returns `None`, and propagates any exception from the inference call. -/
def predict_image (env : Env) (p : Predictor) (image_path : String)
    (save_output : Bool) (output_dir : Option String) :
    Except PyError (PredResult × List String) :=
  if !(env.fs.pathExists image_path) then
    .error (.fileNotFound ("Image not found: " ++ image_path))
  else
    match env.fs.readImage image_path with
    | none => .error (.valueError ("Failed to read image: " ++ image_path))
    | some image =>
        match (if p.use_tta then env.inferTTA p.model image
               else env.inferModel p.model p.conf_threshold p.iou_threshold p.device image) with
        | .error e => .error e
        | .ok results =>
            let predictions := extract_predictions p.model.names results
            let writes :=
              if save_output then
                let od := output_dir.getD ("predictions")
                [od ++ "/" ++ pathStem image_path ++ "_predicted" ++ pathSuffix image_path]
              else []
            .ok (⟨image_path, (image.height, image.width), predictions,
                  predictions.length⟩, writes)

/-- The default `extensions` argument of `predict_batch`. -/
def defaultExtensions : List String := [".jpg", ".jpeg", ".png", ".bmp"]

/-- One glob call of the scan, pattern `*` followed by the literal `ext`:
since `pathlib.Path.glob` matches hidden files too (its `*` also covers
names with a leading dot, unlike shell globbing), a name matches exactly
when it ends in `ext`; matches are returned as `dir/name` paths in
directory order. -/
def globExt (fs : FS) (source_dir : String) (ext : String) : List String :=
  ((fs.listDir source_dir).filter (fun name => strEndsWith name ext)).map
    (fun name => source_dir ++ "/" ++ name)

/-- The image-file scan of `predict_batch` (lines 202-205): for each
extension, glob the lowercase then the uppercase pattern, extending one
list. -/
def findImages (fs : FS) (source_dir : String) (extensions : List String) :
    List String :=
  extensions.foldl
    (fun acc ext =>
      acc ++ globExt fs source_dir ext ++ globExt fs source_dir (strUpper ext))
    []

/-- The per-image loop of `predict_batch` (lines 214-226): each image is
processed by `predict_image`; on success the result is appended, on any
exception the image is skipped and the loop continues. -/
def processAll (env : Env) (p : Predictor) (files : List String)
    (save_output : Bool) (output_dir : Option String) :
    List PredResult × List String :=
  match files with
  | [] => ([], [])
  | f :: rest =>
      let tail := processAll env p rest save_output output_dir
      match predict_image env p f save_output output_dir with
      | .ok (r, ws) => (r :: tail.1, ws ++ tail.2)
      | .error _ => tail

/-- `predict_batch` (lines 178-226).  Raises `FileNotFoundError` for a
missing directory; returns `[]` when no image files are found; otherwise
processes each found image, skipping failures. -/
def predict_batch (env : Env) (p : Predictor) (source_dir : String)
    (save_output : Bool) (output_dir : Option String)
    (extensions : List String) :
    Except PyError (List PredResult × List String) :=
  if !(env.fs.pathExists source_dir) then
    .error (.fileNotFound ("Directory not found: " ++ source_dir))
  else
    let image_files := findImages env.fs source_dir extensions
    if image_files.isEmpty then .ok ([], [])
    else .ok (processAll env p image_files save_output output_dir)

/-- `total_detections` in `main` (line 415):
`sum(r['num_detections'] for r in results)`. -/
def total_detections (results : List PredResult) : Nat :=
  (results.map (fun r => r.num_detections)).sum

/-- `avg_detections` in `main` (line 418), computed when `results` is
nonempty: `total_detections / len(results)`. -/
def avg_detections (results : List PredResult) : ℚ :=
  (total_detections results : ℚ) / (results.length : ℚ)

/-- The parsed CLI arguments of `main`. -/
structure Args where
  source : String
  model : String
  conf : ℚ
  iou : ℚ
  device : Option String
  output : String
  tta : Bool
  no_save : Bool

/-- `main` (lines 281-437), reduced to its control flow and return value:
construct the predictor (any exception gives `1`); dispatch on whether the
source is a file or a directory (neither gives `1`); any exception during
inference gives `1`; otherwise `0`.  `sys.exit(main())` makes this the
process exit code. -/
def mainExit (env : Env) (args : Args) : Nat :=
  match mkPredictor env args.model args.conf args.iou args.device args.tta with
  | .error _ => 1
  | .ok predictor =>
      let output_dir : Option String :=
        if args.no_save then none else some args.output
      if env.fs.isFile args.source then
        match predict_image env predictor args.source (!args.no_save) output_dir with
        | .error _ => 1
        | .ok _ => 0
      else if env.fs.isDir args.source then
        match predict_batch env predictor args.source (!args.no_save) output_dir
            defaultExtensions with
        | .error _ => 1
        | .ok _ => 0
      else 1

/-! ### A concrete test environment

A small filesystem with one model file and one image directory, used to
instantiate the general theorems at concrete inputs: `imgs/a.jpg` decodes
and infers one box, `imgs/bad.jpg` exists but does not decode, and
inference on `imgs/err.jpg` raises. -/

/-- Test image behind `imgs/a.jpg`. -/
def imgA : Image := ⟨480, 640, 0⟩

/-- Test image behind `imgs/err.jpg`; its `data` makes `inferOracleA`
raise. -/
def imgErr : Image := ⟨480, 640, 1⟩

/-- One detected box used by the test environment. -/
def boxA : RawBox := ⟨2, 9 / 10, 10, 20, 110, 220⟩

/-- Class-name mapping of the test model. -/
def modelA : Model := ⟨fun i => if i = 2 then "FirstAidBox" else "object"⟩

/-- Test filesystem: one model file, one directory of three images, one
empty directory. -/
def fsA : FS where
  pathExists := fun p =>
    ["best.pt", "imgs", "emptydir", "imgs/a.jpg", "imgs/bad.jpg", "imgs/err.jpg"].contains p
  isFile := fun p =>
    ["best.pt", "imgs/a.jpg", "imgs/bad.jpg", "imgs/err.jpg"].contains p
  isDir := fun p => p = "imgs" || p = "emptydir"
  readImage := fun p =>
    if p = "imgs/a.jpg" then some imgA
    else if p = "imgs/err.jpg" then some imgErr
    else none
  listDir := fun p =>
    if p = "imgs" then ["a.jpg", "bad.jpg", "err.jpg"] else []

/-- Test inference oracle: raises on `imgErr`, else returns one box. -/
def inferOracleA : Model → ℚ → ℚ → String → Image → Except PyError InferResults :=
  fun _ _ _ _ img =>
    if img.data = 1 then .error (.other ("inference failed"))
    else .ok (some [boxA])

/-- The test environment; TTA is unavailable in it. -/
def envA : Env where
  fs := fsA
  ttaAvailable := false
  cudaAvailable := false
  loadYOLO := fun _ => .ok modelA
  loadTTA := fun _ _ _ => .error (.other ("tta unavailable"))
  inferModel := inferOracleA
  inferTTA := fun _ _ => .ok none

/-- The predictor `mkPredictor envA "best.pt" (1/4) (9/20) none false`
yields. -/
def predA : Predictor := ⟨"best.pt", 1 / 4, 9 / 20, false, "cpu", modelA⟩

/-- CLI arguments for a batch run over `imgs` in the test environment. -/
def argsBatchA : Args :=
  ⟨"imgs", "best.pt", 1 / 4, 9 / 20, none, "out", false, false⟩

/-- The result `predict_image envA predA "imgs/a.jpg" true none` yields. -/
def resA : PredResult :=
  ⟨"imgs/a.jpg", (480, 640), [⟨2, "FirstAidBox", 9 / 10, [10, 20, 110, 220]⟩], 1⟩

/-! ### Helper lemmas shared by the claim theorems -/

/-- Every record produced by `_extract_predictions` resolves its class name
through the given mapping and carries a four-entry box. -/
theorem extract_predictions_spec (names : Int → String) (results : InferResults) :
    ∀ q ∈ extract_predictions names results,
      q.class_name = names q.class_id ∧ q.bbox.length = 4 := by
  intro q hq
  cases results with
  | none => simp [extract_predictions] at hq
  | some boxes =>
      simp only [extract_predictions, List.mem_map] at hq
      obtain ⟨b, _, rfl⟩ := hq
      exact ⟨rfl, rfl⟩

/-- Shape of any successful `predict_image` result: the detection count is
the length of the predictions list, and each prediction satisfies
`extract_predictions_spec` for the predictor's class-name mapping. -/
theorem predict_image_ok_shape (env : Env) (p : Predictor) (image_path : String)
    (save_output : Bool) (output_dir : Option String) (r : PredResult)
    (ws : List String)
    (h : predict_image env p image_path save_output output_dir = .ok (r, ws)) :
    r.num_detections = r.predictions.length ∧
    ∀ q ∈ r.predictions, q.class_name = p.model.names q.class_id ∧ q.bbox.length = 4 := by
  unfold predict_image at h
  split at h
  · exact absurd h (by simp)
  · split at h
    · exact absurd h (by simp)
    · split at h
      · exact absurd h (by simp)
      · rename_i results heq
        simp only [Except.ok.injEq, Prod.mk.injEq] at h
        obtain ⟨h1, -⟩ := h
        subst h1
        exact ⟨rfl, extract_predictions_spec p.model.names results⟩

/-- The results list of the per-image loop keeps, in order, exactly the
images whose `predict_image` call succeeded. -/
theorem processAll_fst (env : Env) (p : Predictor) (files : List String)
    (save_output : Bool) (output_dir : Option String) :
    (processAll env p files save_output output_dir).1 =
      files.filterMap (fun f =>
        match predict_image env p f save_output output_dir with
        | .ok (r, _) => some r
        | .error _ => none) := by
  induction files with
  | nil => rfl
  | cons f rest ih =>
      simp only [processAll, List.filterMap_cons]
      cases h : predict_image env p f save_output output_dir with
      | error e => simpa [h] using ih
      | ok v =>
          obtain ⟨r, ws⟩ := v
          simpa [h] using ih

/-- Every result in the per-image loop's list has its count field equal to
its predictions length. -/
theorem processAll_counts (env : Env) (p : Predictor) (files : List String)
    (save_output : Bool) (output_dir : Option String) :
    ∀ r ∈ (processAll env p files save_output output_dir).1,
      r.num_detections = r.predictions.length := by
  induction files with
  | nil => intro r hr; simp [processAll] at hr
  | cons f rest ih =>
      intro r hr
      simp only [processAll] at hr
      revert hr
      cases h : predict_image env p f save_output output_dir with
      | error e => exact fun hr => ih r hr
      | ok v =>
          obtain ⟨r', ws⟩ := v
          intro hr
          rcases List.mem_cons.mp hr with rfl | hr'
          · exact (predict_image_ok_shape env p f save_output output_dir r ws h).1
          · exact ih r hr'

/-! ### Claim theorems -/

/-- Claim C2: for every model path that does not exist on the filesystem,
constructing the predictor raises `FileNotFoundError`, and no model is
loaded — the environment (hence every load oracle) is arbitrary, so the
same error results whatever `loadYOLO` and `loadTTA` would do, showing the
loading step is never consulted. -/
theorem mkPredictor_missing_model (env : Env) (model_path : String)
    (conf_threshold iou_threshold : ℚ) (device : Option String) (use_tta : Bool)
    (h : env.fs.pathExists model_path = false) :
    mkPredictor env model_path conf_threshold iou_threshold device use_tta =
      .error (.fileNotFound ("Model not found: " ++ model_path)) := by
  simp [mkPredictor, h]

/-- Witness for C2: in the test environment, `nope.pt` does not exist and
constructing on it gives the file-not-found error. -/
theorem mkPredictor_missing_model_witness :
    envA.fs.pathExists ("nope.pt") = false ∧
    mkPredictor envA ("nope.pt") (1 / 4) (9 / 20) none false =
      .error (.fileNotFound ("Model not found: " ++ "nope.pt")) :=
  ⟨rfl, mkPredictor_missing_model envA ("nope.pt") (1 / 4) (9 / 20) none false rfl⟩

/-- Claim C3: for every image path that does not exist, `predict_image`
raises `FileNotFoundError` before reading or inferring — the environment
(hence the read and inference oracles) is arbitrary, so neither is
consulted. -/
theorem predict_image_missing_image (env : Env) (p : Predictor)
    (image_path : String) (save_output : Bool) (output_dir : Option String)
    (h : env.fs.pathExists image_path = false) :
    predict_image env p image_path save_output output_dir =
      .error (.fileNotFound ("Image not found: " ++ image_path)) := by
  simp [predict_image, h]

/-- Witness for C3: `imgs/missing.jpg` does not exist in the test
environment and `predict_image` gives the file-not-found error. -/
theorem predict_image_missing_image_witness :
    envA.fs.pathExists ("imgs/missing.jpg") = false ∧
    predict_image envA predA ("imgs/missing.jpg") true none =
      .error (.fileNotFound ("Image not found: " ++ "imgs/missing.jpg")) :=
  ⟨rfl, predict_image_missing_image envA predA ("imgs/missing.jpg") true none rfl⟩

/-- Claim C4: for every image path that exists but whose contents
`cv2.imread` cannot decode (it returns `None`), `predict_image` raises
`ValueError` before running inference — the environment (hence the
inference oracles) is arbitrary. -/
theorem predict_image_unreadable (env : Env) (p : Predictor)
    (image_path : String) (save_output : Bool) (output_dir : Option String)
    (hex : env.fs.pathExists image_path = true)
    (hread : env.fs.readImage image_path = none) :
    predict_image env p image_path save_output output_dir =
      .error (.valueError ("Failed to read image: " ++ image_path)) := by
  simp [predict_image, hex, hread]

/-- Witness for C4: `imgs/bad.jpg` exists but does not decode, and
`predict_image` gives the value error. -/
theorem predict_image_unreadable_witness :
    envA.fs.pathExists ("imgs/bad.jpg") = true ∧
    envA.fs.readImage ("imgs/bad.jpg") = none ∧
    predict_image envA predA ("imgs/bad.jpg") true none =
      .error (.valueError ("Failed to read image: " ++ "imgs/bad.jpg")) :=
  ⟨rfl, rfl, predict_image_unreadable envA predA ("imgs/bad.jpg") true none rfl rfl⟩

/-- Claim C5: for every existing directory in which the extension scan
finds no image files, `predict_batch` returns the empty result list (and
writes nothing) instead of raising. -/
theorem predict_batch_empty_dir (env : Env) (p : Predictor)
    (source_dir : String) (save_output : Bool) (output_dir : Option String)
    (hex : env.fs.pathExists source_dir = true)
    (hempty : findImages env.fs source_dir defaultExtensions = []) :
    predict_batch env p source_dir save_output output_dir defaultExtensions =
      .ok ([], []) := by
  simp [predict_batch, hex, hempty]

/-- Witness for C5: `emptydir` exists, contains no images, and batch
prediction over it returns the empty list. -/
theorem predict_batch_empty_dir_witness :
    envA.fs.pathExists ("emptydir") = true ∧
    findImages envA.fs ("emptydir") defaultExtensions = [] ∧
    predict_batch envA predA ("emptydir") true none defaultExtensions =
      .ok ([], []) :=
  ⟨rfl, rfl, predict_batch_empty_dir envA predA ("emptydir") true none rfl rfl⟩

/-- Claim C6: during batch processing an exception on one image is caught,
that image contributes no entry, and processing continues; the returned
list holds exactly one result per successfully processed image, in
processing order. -/
theorem predict_batch_skips_failures (env : Env) (p : Predictor)
    (source_dir : String) (save_output : Bool) (output_dir : Option String)
    (exts : List String)
    (hex : env.fs.pathExists source_dir = true) :
    ∃ writes, predict_batch env p source_dir save_output output_dir exts =
      .ok ((findImages env.fs source_dir exts).filterMap
        (fun f => match predict_image env p f save_output output_dir with
          | .ok (r, _) => some r
          | .error _ => none), writes) := by
  by_cases hempty : (findImages env.fs source_dir exts).isEmpty = true
  · refine ⟨[], ?_⟩
    rw [List.isEmpty_iff] at hempty
    simp [predict_batch, hex, hempty]
  · refine ⟨(processAll env p (findImages env.fs source_dir exts) save_output
      output_dir).2, ?_⟩
    have hfst := processAll_fst env p (findImages env.fs source_dir exts)
      save_output output_dir
    simp [predict_batch, hex, hempty, ← hfst]

/-- Witness for C6: batch prediction over `imgs` returns exactly the
results of the images whose processing succeeded, in order. -/
theorem predict_batch_skips_failures_witness :
    envA.fs.pathExists ("imgs") = true ∧
    (∃ writes, predict_batch envA predA ("imgs") true none defaultExtensions =
      .ok ((findImages envA.fs ("imgs") defaultExtensions).filterMap
        (fun f => match predict_image envA predA f true none with
          | .ok (r, _) => some r
          | .error _ => none), writes)) :=
  ⟨rfl, predict_batch_skips_failures envA predA ("imgs") true none
    defaultExtensions rfl⟩

/-- Claim C7: the batch summary is arithmetically consistent with the
per-image results: the total (`sum(r['num_detections'] for r in results)`)
equals the sum of the per-image prediction-list lengths, and for a
nonempty result list the reported average equals the total divided by the
number of results. -/
theorem batch_summary_consistent (env : Env) (p : Predictor)
    (source_dir : String) (save_output : Bool) (output_dir : Option String)
    (exts : List String) (results : List PredResult) (writes : List String)
    (h : predict_batch env p source_dir save_output output_dir exts =
      .ok (results, writes)) :
    total_detections results = (results.map (fun r => r.predictions.length)).sum ∧
    (results ≠ [] →
      avg_detections results =
        (total_detections results : ℚ) / (results.length : ℚ)) := by
  refine ⟨?_, fun _ => rfl⟩
  have hcnt : ∀ r ∈ results, r.num_detections = r.predictions.length := by
    unfold predict_batch at h
    split at h
    · exact absurd h (by simp)
    · by_cases hempty : (findImages env.fs source_dir exts).isEmpty = true
      · simp only [hempty, if_true, Except.ok.injEq, Prod.mk.injEq] at h
        obtain ⟨h1, -⟩ := h
        intro r hr
        rw [← h1] at hr
        simp at hr
      · simp only [hempty, Bool.false_eq_true, if_false, Except.ok.injEq] at h
        intro r hr
        have h1 : (processAll env p (findImages env.fs source_dir exts) save_output
            output_dir).1 = results := by rw [h]
        rw [← h1] at hr
        exact processAll_counts env p _ save_output output_dir r hr
  unfold total_detections
  exact congrArg List.sum (List.map_congr_left hcnt)

/-- Witness for C7: the summary over the concrete batch run is consistent
with the single successful result's count. -/
theorem batch_summary_consistent_witness :
    predict_batch envA predA ("imgs") true none defaultExtensions =
      .ok ([resA], ["predictions/a_predicted.jpg"]) ∧
    (total_detections [resA] = ([resA].map (fun r => r.predictions.length)).sum ∧
      ([resA] ≠ [] →
        avg_detections [resA] =
          (total_detections [resA] : ℚ) / (([resA] : List PredResult).length : ℚ))) :=
  ⟨rfl, batch_summary_consistent envA predA ("imgs") true none defaultExtensions
    [resA] ["predictions/a_predicted.jpg"] rfl⟩

/-- Claim C8: for every successfully processed image with saving enabled,
the annotated output file is written into the output directory (defaulting
to `predictions`) under the name made of the input's stem, `_predicted`,
and the input's suffix. -/
theorem predict_image_output_name (env : Env) (p : Predictor)
    (image_path : String) (output_dir : Option String) (r : PredResult)
    (ws : List String)
    (h : predict_image env p image_path true output_dir = .ok (r, ws)) :
    ws = [output_dir.getD ("predictions") ++ "/" ++ pathStem image_path ++
      "_predicted" ++ pathSuffix image_path] := by
  unfold predict_image at h
  split at h
  · exact absurd h (by simp)
  · split at h
    · exact absurd h (by simp)
    · split at h
      · exact absurd h (by simp)
      · simp only [Except.ok.injEq, Prod.mk.injEq] at h
        obtain ⟨-, h2⟩ := h
        rw [← h2]
        simp

/-- Witness for C8: saving `imgs/a.jpg` writes
`predictions/a_predicted.jpg`. -/
theorem predict_image_output_name_witness :
    predict_image envA predA ("imgs/a.jpg") true none =
      .ok (resA, ["predictions/a_predicted.jpg"]) ∧
    ["predictions/a_predicted.jpg"] =
      [(none : Option String).getD ("predictions") ++ "/" ++
        pathStem ("imgs/a.jpg") ++ "_predicted" ++ pathSuffix ("imgs/a.jpg")] :=
  ⟨rfl, predict_image_output_name envA predA ("imgs/a.jpg") none resA
    ["predictions/a_predicted.jpg"] rfl⟩

/-- Claim C9: every successful `predict_image` result satisfies the data
model: `num_detections` equals the length of `predictions`, and every
detection resolves its class name through the model's class-id-to-name
mapping and has a bounding box of exactly four coordinates.  (The class id
being an integer and the confidence a number are enforced by the record
types `Prediction.class_id : Int` and `Prediction.confidence : ℚ`.) -/
theorem predict_image_result_invariant (env : Env) (p : Predictor)
    (image_path : String) (save_output : Bool) (output_dir : Option String)
    (r : PredResult) (ws : List String)
    (h : predict_image env p image_path save_output output_dir = .ok (r, ws)) :
    r.num_detections = r.predictions.length ∧
    ∀ q ∈ r.predictions,
      q.class_name = p.model.names q.class_id ∧ q.bbox.length = 4 :=
  predict_image_ok_shape env p image_path save_output output_dir r ws h

/-- Witness for C9: the concrete result for `imgs/a.jpg` satisfies the
invariant. -/
theorem predict_image_result_invariant_witness :
    predict_image envA predA ("imgs/a.jpg") true none =
      .ok (resA, ["predictions/a_predicted.jpg"]) ∧
    (resA.num_detections = resA.predictions.length ∧
      ∀ q ∈ resA.predictions,
        q.class_name = predA.model.names q.class_id ∧ q.bbox.length = 4) :=
  ⟨rfl, predict_image_result_invariant envA predA ("imgs/a.jpg") true none resA
    ["predictions/a_predicted.jpg"] rfl⟩

/-- Claim C10: when the TTA module failed to import
(`TTA_AVAILABLE = False`), requesting `use_tta = True` is silently
downgraded: construction behaves exactly as with `use_tta = False` (the
plain `YOLO` path, no error for the ignored request), and any predictor
built carries `use_tta = false`. -/
theorem tta_unavailable_silent_downgrade (env : Env) (model_path : String)
    (conf_threshold iou_threshold : ℚ) (device : Option String)
    (h : env.ttaAvailable = false) :
    mkPredictor env model_path conf_threshold iou_threshold device true =
      mkPredictor env model_path conf_threshold iou_threshold device false ∧
    ∀ p, mkPredictor env model_path conf_threshold iou_threshold device true =
      .ok p → p.use_tta = false := by
  constructor
  · simp [mkPredictor, h]
  · intro p hp
    unfold mkPredictor at hp
    split at hp
    · exact absurd hp (by simp)
    · simp only [h, Bool.and_false, Bool.false_eq_true, if_false] at hp
      split at hp
      · exact absurd hp (by simp)
      · rw [Except.ok.injEq] at hp
        rw [← hp]

/-- Witness for C10: in the test environment TTA is unavailable, and
requesting it is downgraded to the plain path. -/
theorem tta_unavailable_silent_downgrade_witness :
    envA.ttaAvailable = false ∧
    (mkPredictor envA ("best.pt") (1 / 4) (9 / 20) none true =
       mkPredictor envA ("best.pt") (1 / 4) (9 / 20) none false ∧
     ∀ p, mkPredictor envA ("best.pt") (1 / 4) (9 / 20) none true = .ok p →
       p.use_tta = false) :=
  ⟨rfl, tta_unavailable_silent_downgrade envA ("best.pt") (1 / 4) (9 / 20) none rfl⟩

/-- Claim C1: the entry point returns exit code 0 exactly when the
predictor is constructed without error and the source is a file whose
single-image inference succeeds, or not a file but a directory whose batch
inference succeeds; in every other case (model-load failure, a source that
is neither file nor directory, an exception during single or batch
inference) it returns 1, and no other code is possible. -/
theorem main_exit_code_spec (env : Env) (args : Args) :
    (mainExit env args = 0 ∨ mainExit env args = 1) ∧
    (mainExit env args = 0 ↔
      ∃ p, mkPredictor env args.model args.conf args.iou args.device args.tta =
          .ok p ∧
        ((env.fs.isFile args.source = true ∧
            (predict_image env p args.source (!args.no_save)
              (if args.no_save then none else some args.output)).isOk = true) ∨
          (env.fs.isFile args.source = false ∧ env.fs.isDir args.source = true ∧
            (predict_batch env p args.source (!args.no_save)
              (if args.no_save then none else some args.output)
              defaultExtensions).isOk = true))) := by
  unfold mainExit
  cases hmk : mkPredictor env args.model args.conf args.iou args.device args.tta with
  | error e => exact ⟨Or.inr rfl, by simp⟩
  | ok predictor =>
      dsimp only
      cases hfile : env.fs.isFile args.source with
      | true =>
          cases hpi : predict_image env predictor args.source (!args.no_save)
              (if args.no_save then none else some args.output) with
          | error e =>
              refine ⟨Or.inr rfl, ?_⟩
              simp [hfile, hpi, Except.isOk, Except.toBool]
          | ok v =>
              refine ⟨Or.inl rfl, ?_⟩
              simp [hfile, hpi, Except.isOk, Except.toBool]
      | false =>
          cases hdir : env.fs.isDir args.source with
          | false =>
              refine ⟨Or.inr rfl, ?_⟩
              simp [hfile, hdir]
          | true =>
              cases hpb : predict_batch env predictor args.source (!args.no_save)
                  (if args.no_save then none else some args.output)
                  defaultExtensions with
              | error e =>
                  refine ⟨Or.inr rfl, ?_⟩
                  simp [hfile, hdir, hpb, Except.isOk, Except.toBool]
              | ok v =>
                  refine ⟨Or.inl rfl, ?_⟩
                  simp [hfile, hdir, hpb, Except.isOk, Except.toBool]

end SafeOrbit
